import Mathlib

/-!
Verification of the WeeWX → TimescaleDB synchronisation service
(`bin/user/tsdb.py`, class `TimescaleDBSync`) against its natural-language
specification.  The Python code is shallowly embedded: a record (Python
dict) is an association list from field name to a nullable integer value,
the Postgres destination is an association list of named tables, and the
two sqlite ledger tables (`synced_archive`, `synced_archive_day`) are
association lists of `(dateTime, synced)` pairs.  SQL statements are
embedded by their effect on this state: `CREATE TABLE IF NOT EXISTS`,
`ALTER TABLE ADD COLUMN IF NOT EXISTS`, plain `INSERT` (which errs on an
undefined column or on a duplicate primary key), and the `NOT IN` backlog
query.  Postgres folds unquoted identifiers to lower case; the embedding
applies the same folding at every SQL boundary.  Connection-level failures
(psycopg2.connect / sqlite3.connect raising) are not modelled: every
modelled failure is an SQL statement error, which is what `_insert_tsdb`
catches and logs.  Records lacking a `dateTime` key are outside the scope
of the embedding (`dtOf` defaults to 0); WeeWX archive records always
carry one.
-/

namespace Tsdb

/-- A field value: an integer/float measurement or SQL NULL. -/
abbrev Val := Option Int

/-- A record: a Python dict from field name to value, kept as an
association list in insertion order. -/
abbrev Record := List (String × Val)

/-- Dict lookup: the value of the first entry with the given key. -/
def lookupField (r : Record) (c : String) : Option Val :=
  (r.find? (fun p => p.1 == c)).map Prod.snd

/-- record.get('dateTime'), read as an integer; archive records always
carry it, so the default 0 is never reached on real inputs. -/
def dtOf (r : Record) : Int :=
  match lookupField r "dateTime" with
  | some (some n) => n
  | _ => 0

/-- self.archive_columns (tsdb.py lines 40-53), transcribed verbatim. -/
def archive_columns : List String :=
  ["dateTime", "usUnits", "interval", "altimeter", "appTemp", "appTemp1", "barometer",
   "batteryStatus1", "batteryStatus2", "cloudBase", "co", "co2", "consBatteryVoltage", "dewpoint",
   "ET", "extraHumid1", "extraHumid2", "extraTemp1", "extraTemp2", "forecast", "hail", "hailRate",
   "heatindex", "heatIndex1", "heatingTemp", "heatingVoltage", "humIndex", "humIndex1", "inDewpoint",
   "inHumidity", "inTemp", "leafTemp1", "leafTemp2", "leafWet1", "leafWet2", "lightningDistance",
   "lightningDisturberCount", "lightningEnergy", "lightningNoiseCount", "lightningStrikeCount",
   "luminosity", "maxSolarRad", "nh3", "no2", "noise", "o3", "outHumidity", "outTemp", "pb", "pm10",
   "pm1", "pm2_5", "pressure", "radiation", "rain", "rainRate", "rxCheckPercent", "snow", "snowDepth",
   "snowMoisture", "snowRate", "so2", "soilMoist1", "soilMoist2", "soilTemp1", "soilTemp2",
   "txBatteryStatus", "uv", "windChill", "windDir", "windGust", "windGustDir", "windRun", "windSpeed",
   "highOutTemp", "lowOutTemp", "forecastRule", "windSpeed10", "dayRain", "monthRain", "yearRain",
   "stormRain", "dayET", "monthET", "yearET", "forecastIcon", "sunrise", "sunset", "wind_samples"]

/-- self.daily_archive_tables (tsdb.py lines 31-38), transcribed verbatim. -/
def daily_archive_tables : List String :=
  ["archive_day_altimeter", "archive_day_appTemp1", "archive_day_barometer",
   "archive_day_cloudBase", "archive_day_dewpoint", "archive_day_ET", "archive_day_heatindex",
   "archive_day_humidex", "archive_day_inDewpoint", "archive_day_inHumidity", "archive_day_inTemp",
   "archive_day_outHumidity", "archive_day_outTemp", "archive_day_pressure", "archive_day_rain",
   "archive_day_rainRate", "archive_day_windChill", "archive_day_windDir", "archive_day_windGust",
   "archive_day_windGustDir", "archive_day_windRun", "archive_day_windSpeed"]

/-- The extra names admitted by the filter on tsdb.py line 179. -/
def seed_columns : List String := ["dateTime", "usUnits", "interval"]

/-- The record filter of _insert_tsdb line 179:
col in self.archive_columns or col in ['dateTime', 'usUnits', 'interval']. -/
def insertFilter (record : Record) : Record :=
  record.filter (fun p => archive_columns.contains p.1 || seed_columns.contains p.1)

/-- ASCII lower-casing of one character (all identifiers in this code are
ASCII). -/
def lowerChar (c : Char) : Char :=
  if c.toNat ≥ 65 && c.toNat ≤ 90 then Char.ofNat (c.toNat + 32) else c

/-- Postgres folds unquoted identifiers to lower case; every identifier this
code sends is unquoted. -/
def fold (s : String) : String := String.mk (s.data.map lowerChar)

/-- A record with its keys folded, as the destination stores the row. -/
def foldRecord (r : Record) : Record := r.map (fun p => (fold p.1, p.2))

/-- A destination (Postgres) table: its column names as stored (folded),
whether `dateTime INTEGER PRIMARY KEY` was part of its CREATE TABLE,
whether create_hypertable has registered it, and its rows. -/
structure Table where
  cols : List String
  hasPK : Bool
  hypertable : Bool
  rows : List Record
deriving Repr, DecidableEq

/-- The destination database: named tables in creation order. -/
abbrev DB := List (String × Table)

def getTable (db : DB) (t : String) : Option Table :=
  (db.find? (fun p => p.1 == t)).map Prod.snd

def hasTable (db : DB) (t : String) : Bool :=
  (db.find? (fun p => p.1 == t)).isSome

def setTable (db : DB) (t : String) (tb : Table) : DB :=
  db.map (fun p => if p.1 == t then (t, tb) else p)

def colsOf (db : DB) (t : String) : Option (List String) :=
  (getTable db t).map Table.cols

def rowsOf (db : DB) (t : String) : Option (List Record) :=
  (getTable db t).map Table.rows

/-- Whether the table already holds a row with the same datetime value as
the candidate row (both under the folded key). -/
def dupKey (tb : Table) (row : Record) : Bool :=
  tb.rows.any (fun r => lookupField r "datetime" == lookupField row "datetime")

/-- One INSERT INTO t (cols) VALUES (vals), tsdb.py lines 184-185.  The
statement errs when it names a column the table does not have, or when
dateTime is a primary key and the value is already present (there is no ON
CONFLICT clause); an erring statement leaves the table unchanged.  The Bool
is whether the statement succeeded. -/
def sqlInsert (tb : Table) (row : Record) : Table × Bool :=
  if (foldRecord row).all (fun p => tb.cols.contains p.1) then
    if tb.hasPK && dupKey tb (foldRecord row) then (tb, false)
    else ({ tb with rows := tb.rows ++ [foldRecord row] }, true)
  else (tb, false)

/-- CREATE TABLE IF NOT EXISTS of _insert_tsdb line 174-176: one column per
record key, DOUBLE PRECISION except `dateTime INTEGER PRIMARY KEY`. -/
def createFromRecord (db : DB) (t : String) (record : Record) : DB :=
  if hasTable db t then db
  else db ++ [(t, { cols := record.map (fun p => fold p.1),
                    hasPK := record.any (fun p => p.1 == "dateTime"),
                    hypertable := false,
                    rows := [] })]

/-- The result of _insert_tsdb: the updated destination and whether the
INSERT statement succeeded.  The Python function catches every exception
inside its try block and only logs it (lines 188-189), so it always returns
normally: `insertOk` is visible to the caller only as a log line. -/
structure WriteResult where
  db : DB
  insertOk : Bool
deriving Repr, DecidableEq

/-- _insert_tsdb (tsdb.py lines 167-191): create the table if absent from
the record's own keys, filter the record to the catalog, run one INSERT,
and swallow any error. -/
def insert_tsdb (db : DB) (t : String) (record : Record) : WriteResult :=
  match getTable (createFromRecord db t record) t with
  | none => { db := createFromRecord db t record, insertOk := false }
  | some tb =>
      { db := setTable (createFromRecord db t record) t (sqlInsert tb (insertFilter record)).1,
        insertOk := (sqlInsert tb (insertFilter record)).2 }

/-- A sqlite ledger table (`synced_archive` or `synced_archive_day`):
rows of (dateTime, synced). -/
abbrev Ledger := List (Int × Int)

/-- INSERT OR REPLACE INTO ... (dateTime, synced) VALUES (dt, 1)
(tsdb.py lines 97, 142, 225). -/
def markSynced (l : Ledger) (dt : Int) : Ledger :=
  l.filter (fun p => p.1 != dt) ++ [(dt, 1)]

/-- dt IN (SELECT dateTime FROM ... WHERE synced = 1). -/
def isSynced (l : Ledger) (dt : Int) : Bool :=
  l.any (fun p => p.1 == dt && p.2 == 1)

/-- Ascending dateTime order, the ORDER BY of the backlog queries. -/
def dtLe (a b : Record) : Prop := dtOf a ≤ dtOf b

instance : DecidableRel dtLe := fun a b => inferInstanceAs (Decidable (dtOf a ≤ dtOf b))

instance : IsTotal Record dtLe := ⟨fun a b => Int.le_total (dtOf a) (dtOf b)⟩

instance : IsTrans Record dtLe := ⟨fun _ _ _ h h' => le_trans h h'⟩

/-- The backlog query of new_archive_record lines 117-121:
SELECT * FROM archive WHERE dateTime NOT IN
(SELECT dateTime FROM sync_db.synced_archive WHERE synced = 1)
ORDER BY dateTime ASC. -/
def sourceBacklog (archive : List Record) (l : Ledger) : List Record :=
  List.insertionSort dtLe (archive.filter (fun r => !(isSynced l (dtOf r))))

/-- The state the service touches: the Postgres destination and the two
sqlite ledger tables of the sync database. -/
structure World where
  dest : DB
  ledger : Ledger
  dayLedger : Ledger
deriving Repr, DecidableEq

/-- new_archive_record lines 91-105: write the just-arrived record, then
mark it synced.  _insert_tsdb never raises (it swallows its errors), so the
INSERT OR REPLACE into synced_archive runs unconditionally. -/
def deliverNew (w : World) (record : Record) : World :=
  let res := insert_tsdb w.dest "archive" record
  { w with dest := res.db, ledger := markSynced w.ledger (dtOf record) }

/-- The Python column filter applied to each backlog row before insertion
(new_archive_record line 127/135): keep the columns in archive_columns. -/
def filterCat (r : Record) : Record :=
  r.filter (fun p => archive_columns.contains p.1)

/-- One iteration of the backlog loop, lines 134-144: filter the row, write
it, mark it synced.  The per-row except only logs and the loop continues;
_insert_tsdb swallows write errors anyway, so the mark always runs. -/
def catchUpStep (w : World) (row : Record) : World :=
  let old_record := filterCat row
  let res := insert_tsdb w.dest "archive" old_record
  { w with dest := res.db, ledger := markSynced w.ledger (dtOf old_record) }

/-- new_archive_record lines 107-153: fetch the backlog once, then replay
every row through _insert_tsdb, marking each synced. -/
def catchUpPrimary (srcArchive : List Record) (w : World) : World :=
  (sourceBacklog srcArchive w.ledger).foldl catchUpStep w

/-- The per-table backlog query of _sync_daily_archives lines 204-208; note
that every daily table filters against the one shared synced_archive_day
table. -/
def dayBacklog (rows : List Record) (l : Ledger) : List Record :=
  List.insertionSort dtLe (rows.filter (fun r => !(isSynced l (dtOf r))))

/-- One iteration of the daily loop, lines 218-227: the daily row is passed
to _insert_tsdb unfiltered (the catalog filter happens inside), then the
day is marked in the shared synced_archive_day table. -/
def syncDailyStep (t : String) (w : World) (row : Record) : World :=
  let res := insert_tsdb w.dest t row
  { w with dest := res.db, dayLedger := markSynced w.dayLedger (dtOf row) }

/-- _sync_daily_archives for one table: backlog, then replay.  The marks of
the previous table are committed before the next table's query runs. -/
def syncDailyTable (src : String → List Record) (w : World) (t : String) : World :=
  (dayBacklog (src t) w.dayLedger).foldl (syncDailyStep t) w

/-- _sync_daily_archives (tsdb.py lines 193-242): the daily tables in their
fixed order, each against the shared day ledger. -/
def sync_daily_archives (src : String → List Record) (w : World) : World :=
  daily_archive_tables.foldl (syncDailyTable src) w

/-- A configuration entry as a config file supplies it: absent, or the raw
string value. -/
inductive ConfEntry
  | absent
  | val (s : String)
deriving Repr, DecidableEq

/-- A Python value as stored in self.enable_daily_sync. -/
inductive PyVal
  | bool (b : Bool)
  | str (s : String)
deriving Repr, DecidableEq

/-- config_dict['TimescaleDBSync'].get('enable_daily_sync', False)
(tsdb.py line 62): a present option is kept as its raw string, an absent
one becomes the Python bool False. -/
def getEnableDailySync : ConfEntry → PyVal
  | .absent => .bool false
  | .val s => .str s

/-- Python truthiness, as tested by `if self.enable_daily_sync:` on line
162: a bool is itself, a string is truthy iff non-empty. -/
def pyTruthy : PyVal → Bool
  | .bool b => b
  | .str s => !(s == "")

/-- The outcome of one new_archive_record cycle: the final state and
whether _sync_daily_archives was invoked. -/
structure CycleResult where
  world : World
  dailyRan : Bool
deriving Repr, DecidableEq

/-- new_archive_record (tsdb.py lines 86-164): deliver the new record,
catch up the primary backlog, then run the daily sync iff the stored
enable_daily_sync value is truthy. -/
def new_archive_record (cfg : ConfEntry) (srcArchive : List Record)
    (srcDaily : String → List Record) (w : World) (record : Record) : CycleResult :=
  let w1 := deliverNew w record
  let w2 := catchUpPrimary srcArchive w1
  if pyTruthy (getEnableDailySync cfg) then
    { world := sync_daily_archives srcDaily w2, dailyRan := true }
  else
    { world := w2, dailyRan := false }

/-- The destination-side provisioning state: whether CREATE DATABASE and
CREATE EXTENSION have run, and the tables. -/
structure PgState where
  dbCreated : Bool
  ext : Bool
  tables : DB
deriving Repr, DecidableEq

/-- ALTER TABLE ... ADD COLUMN IF NOT EXISTS c DOUBLE PRECISION, with the
identifier folded as Postgres stores it. -/
def alterAddColIfAbsent (tb : Table) (c : String) : Table :=
  if tb.cols.contains (fold c) then tb else { tb with cols := tb.cols ++ [fold c] }

/-- The catalog-column loop of _init_sync_db lines 322-330.  The skip test
compares the catalog name against the lower-case seed names, so of the
three seed entries only 'interval' matches it; 'dateTime' and 'usUnits'
fall through to the (no-op, since folded) ALTER. -/
def addCatalogColumns (tb : Table) : Table :=
  archive_columns.foldl
    (fun t c =>
      if c == "datetime" || c == "usunits" || c == "interval" then t
      else alterAddColIfAbsent t c) tb

/-- The daily-summary seed schema of _init_sync_db lines 336-348. -/
def dailySeedCols : List String :=
  ["datetime", "min", "mintime", "max", "maxtime", "sum", "count", "wsum", "sumtime"]

/-- CREATE TABLE IF NOT EXISTS for a daily table (no primary key). -/
def createDailyTable (db : DB) (t : String) : DB :=
  if hasTable db t then db
  else db ++ [(t, { cols := dailySeedCols, hasPK := false, hypertable := false, rows := [] })]

/-- SELECT create_hypertable(t, 'datetime', if_not_exists => TRUE, ...). -/
def makeHypertable (db : DB) (t : String) : DB :=
  match getTable db t with
  | none => db
  | some tb => setTable db t { tb with hypertable := true }

/-- The destination part of _init_sync_db (tsdb.py lines 272-360): ensure
the database and the extension, then — only when the archive table does not
yet exist — create it with the three seed columns and no primary key,
register the hypertable, add the catalog columns, and create and register
the daily tables.  When the archive table exists, all of those steps are
skipped. -/
def init_tsdb (p : PgState) : PgState :=
  let p1 : PgState := { p with dbCreated := true, ext := true }
  if hasTable p1.tables "archive" then p1
  else
    let db1 := p1.tables ++
      [("archive", { cols := ["datetime", "usunits", "interval"], hasPK := false,
                     hypertable := false, rows := [] })]
    let db2 := makeHypertable db1 "archive"
    let db3 := match getTable db2 "archive" with
               | none => db2
               | some tb => setTable db2 "archive" (addCatalogColumns tb)
    let db4 := daily_archive_tables.foldl
      (fun d t => makeHypertable (createDailyTable d t) t) db3
    { p1 with tables := db4 }

/-! Concrete instances used by the counterexamples and witnesses. -/

/-- The empty service state: fresh destination, empty sync database. -/
def wEmpty : World := { dest := [], ledger := [], dayLedger := [] }

/-- A typical archive record at dateTime 100. -/
def r100 : Record := [("dateTime", some 100), ("outTemp", some 20)]

/-- A second archive record at dateTime 200. -/
def r200 : Record := [("dateTime", some 200), ("outTemp", some 2)]

/-- The destination after the writer itself created the archive table and
delivered r100 (so the table has a dateTime primary key and one row). -/
def dbC2 : DB := (insert_tsdb [] "archive" r100).db

/-- The archive table of dbC2, written out. -/
def tbC2 : Table :=
  { cols := ["datetime", "outtemp"], hasPK := true, hypertable := false,
    rows := [[("datetime", some 100), ("outtemp", some 20)]] }

/-- The destination provisioned by _init_sync_db from nothing: the archive
table has all catalog columns and no primary key. -/
def pProv : PgState := init_tsdb { dbCreated := false, ext := false, tables := [] }

/-- pProv's destination after the same record is written twice. -/
def dbTwice : DB := (insert_tsdb (insert_tsdb pProv.tables "archive" r100).db "archive" r100).db

/-- The number of destination rows of table t carrying the given dateTime. -/
def rowCount (db : DB) (t : String) (dt : Int) : Nat :=
  match getTable db t with
  | none => 0
  | some tb => (tb.rows.filter (fun r => lookupField r "datetime" == some (some dt))).length

/-- An archive table holding only the three seed columns, as _init_sync_db
creates it before the catalog loop. -/
def seedArchiveTable : Table :=
  { cols := ["datetime", "usunits", "interval"], hasPK := false, hypertable := false, rows := [] }

/-- A destination whose archive table has only the seed columns. -/
def dbSeed : DB := [("archive", seedArchiveTable)]

/-- A partially-provisioned destination: the archive table exists (seed
columns only, not a hypertable) but no daily table does. -/
def pPartial : PgState := { dbCreated := true, ext := true, tables := [("archive", seedArchiveTable)] }

/-- A daily-summary row at dateTime 100. -/
def dayRec : Record := [("dateTime", some 100), ("min", some 1), ("max", some 5)]

/-- A daily source where exactly two rollup tables hold a row at 100. -/
def srcDailyC3 : String → List Record := fun t =>
  if t == "archive_day_altimeter" || t == "archive_day_rain" then [dayRec] else []

/-- Source archive rows at 100, 50 and 200, arriving out of order. -/
def arc3 : List Record :=
  [[("dateTime", some 100)], [("dateTime", some 50)], [("dateTime", some 200)]]

/-- The 50-timestamp row of arc3. -/
def arc3lo : Record := [("dateTime", some 50)]

/-- Two undelivered source rows. -/
def arc2 : List Record := [[("dateTime", some 10)], [("dateTime", some 20)]]

/-! Ledger lemmas. -/

/-- Marking a key makes it synced. -/
theorem isSynced_markSynced_self (l : Ledger) (d : Int) :
    isSynced (markSynced l d) d = true := by
  simp [isSynced, markSynced]

/-- Marking one key keeps every synced key synced (monotonicity of the
ledger under INSERT OR REPLACE with synced = 1). -/
theorem isSynced_markSynced_of (l : Ledger) (d d' : Int)
    (h : isSynced l d = true) : isSynced (markSynced l d') d = true := by
  by_cases hdd : d = d'
  · subst hdd; exact isSynced_markSynced_self l d
  · unfold isSynced at h ⊢
    unfold markSynced
    rcases List.any_eq_true.mp h with ⟨p, hp, hpd⟩
    refine List.any_eq_true.mpr ⟨p, List.mem_append_left _ (List.mem_filter.mpr ⟨hp, ?_⟩), hpd⟩
    have hpd' := hpd
    rw [Bool.and_eq_true] at hpd'
    have h1 : p.1 = d := eq_of_beq hpd'.1
    rw [h1]
    exact bne_iff_ne.mpr hdd

/-- A synced key stays synced through the whole backlog loop. -/
theorem isSynced_catchUp_foldl (rows : List Record) (w : World) (d : Int)
    (h : isSynced w.ledger d = true) :
    isSynced ((rows.foldl catchUpStep w).ledger) d = true := by
  induction rows generalizing w with
  | nil => simpa using h
  | cons x xs ih => exact ih (catchUpStep w x) (isSynced_markSynced_of _ _ _ h)

/-- Every row the backlog loop visits ends marked synced, whether or not
its write succeeded. -/
theorem marks_all_catchUp (rows : List Record) (w : World) (r : Record)
    (hr : r ∈ rows) :
    isSynced ((rows.foldl catchUpStep w).ledger) (dtOf (filterCat r)) = true := by
  induction rows generalizing w with
  | nil => cases hr
  | cons x xs ih =>
      rcases List.mem_cons.mp hr with h | h
      · subst h
        exact isSynced_catchUp_foldl xs (catchUpStep w r) _ (isSynced_markSynced_self _ _)
      · exact ih (catchUpStep w x) h

/-! Lookup and filter lemmas. -/

/-- Filtering with a predicate that keeps every entry of a key does not
change the lookup of that key. -/
theorem lookupField_filter_eq (r : Record) (pred : String × Val → Bool) (c : String)
    (h : ∀ v : Val, pred (c, v) = true) :
    lookupField (r.filter pred) c = lookupField r c := by
  induction r with
  | nil => rfl
  | cons p r ih =>
      by_cases hpc : ((fun q : String × Val => q.1 == c) p) = true
      · have hc : p.1 = c := eq_of_beq hpc
        have hp : pred p = true := by
          have h2 : pred (p.1, p.2) = true := by rw [hc]; exact h p.2
          simpa using h2
        unfold lookupField
        rw [List.filter_cons_of_pos hp,
          @List.find?_cons_of_pos _ (fun q : String × Val => q.1 == c) p (r.filter pred) hpc,
          @List.find?_cons_of_pos _ (fun q : String × Val => q.1 == c) p r hpc]
      · by_cases hp : pred p = true
        · unfold lookupField at ih ⊢
          rw [List.filter_cons_of_pos hp,
            @List.find?_cons_of_neg _ (fun q : String × Val => q.1 == c) p (r.filter pred) hpc,
            @List.find?_cons_of_neg _ (fun q : String × Val => q.1 == c) p r hpc]
          exact ih
        · unfold lookupField at ih ⊢
          rw [List.filter_cons_of_neg (by simpa using hp),
            @List.find?_cons_of_neg _ (fun q : String × Val => q.1 == c) p r hpc]
          exact ih

/-- Filtering with a predicate that drops every entry of a key makes the
lookup of that key come out empty. -/
theorem lookupField_filter_none (r : Record) (pred : String × Val → Bool) (c : String)
    (h : ∀ v : Val, pred (c, v) = false) :
    lookupField (r.filter pred) c = none := by
  induction r with
  | nil => rfl
  | cons p r ih =>
      by_cases hp : pred p = true
      · have hpc : ¬ (((fun q : String × Val => q.1 == c) p) = true) := by
          intro hne
          have hc : p.1 = c := eq_of_beq hne
          have h2 : pred (p.1, p.2) = false := by rw [hc]; exact h p.2
          have h3 : pred p = false := by simpa using h2
          rw [h3] at hp
          cases hp
        unfold lookupField at ih ⊢
        rw [List.filter_cons_of_pos hp,
          @List.find?_cons_of_neg _ (fun q : String × Val => q.1 == c) p (r.filter pred) hpc]
        exact ih
      · unfold lookupField at ih ⊢
        rw [List.filter_cons_of_neg (by simpa using hp)]
        exact ih

/-- The catalog filter of a backlog row keeps its dateTime. -/
theorem dtOf_filterCat (r : Record) : dtOf (filterCat r) = dtOf r := by
  have hdt : archive_columns.contains "dateTime" = true := by decide
  unfold dtOf filterCat
  rw [lookupField_filter_eq r _ _ (fun _ => hdt)]

/-! Claim theorems. -/

/-- C1: the claim says a Ledger entry is created only after the Upsert
Writer reports success for that (dataset_id, dateTime) pair, and that a
failed destination write is never reported as success.  The code violates
it: _insert_tsdb catches the failing INSERT (here a duplicate-key error on
the writer-created archive table) and returns normally, so
new_archive_record runs INSERT OR REPLACE INTO synced_archive and the
ledger marks dateTime 100 delivered although the destination write failed
and the destination row set is unchanged. -/
theorem C1_failed_insert_still_marks_ledger :
    (insert_tsdb dbC2 "archive" r100).insertOk = false ∧
    rowsOf (deliverNew { dest := dbC2, ledger := [], dayLedger := [] } r100).dest "archive" =
      rowsOf dbC2 "archive" ∧
    isSynced (deliverNew { dest := dbC2, ledger := [], dayLedger := [] } r100).ledger 100 = true := by
  decide

/-- C3: the claim says the Ledger is keyed by (dataset_id, dateTime) so a
mark for one rollup dataset leaves the others deliverable.  The code keeps
one shared synced_archive_day table keyed by dateTime alone: after
_sync_daily_archives processes archive_day_altimeter at dateTime 100 and
marks 100, the backlog query of every later daily table excludes 100, so
archive_day_rain never receives its row (its destination table is not even
created), while the shared day ledger claims 100 delivered. -/
theorem C3_shared_day_ledger_starves_later_tables :
    isSynced (sync_daily_archives srcDailyC3 wEmpty).dayLedger 100 = true ∧
    rowsOf (sync_daily_archives srcDailyC3 wEmpty).dest "archive_day_altimeter" =
      some [[("datetime", some 100)]] ∧
    hasTable (sync_daily_archives srcDailyC3 wEmpty).dest "archive_day_rain" = false := by
  decide

/-- C7: the backlog of the primary dataset is exactly the source records
whose dateTime the ledger does not mark delivered, in ascending dateTime
order, as computed by the single NOT IN set-difference query. -/
theorem C7_backlog_sorted_and_exact (archive : List Record) (led : Ledger) :
    List.Sorted dtLe (sourceBacklog archive led) ∧
    ∀ r : Record, r ∈ sourceBacklog archive led ↔
      (r ∈ archive ∧ isSynced led (dtOf r) = false) := by
  constructor
  · exact List.sorted_insertionSort dtLe (archive.filter (fun r => !(isSynced led (dtOf r))))
  · intro r
    unfold sourceBacklog
    rw [List.mem_insertionSort, List.mem_filter]
    simp

/-- C7 witness: on source timestamps [100, 50, 200] with an empty ledger,
the backlog is sorted and contains the 50-timestamp record. -/
theorem C7_backlog_sorted_and_exact_witness :
    List.Sorted dtLe (sourceBacklog arc3 []) ∧
    (arc3lo ∈ sourceBacklog arc3 [] ↔ (arc3lo ∈ arc3 ∧ isSynced [] (dtOf arc3lo) = false)) :=
  ⟨(C7_backlog_sorted_and_exact arc3 []).1, (C7_backlog_sorted_and_exact arc3 []).2 arc3lo⟩

/-- C8: the claim says at most max_batch (a configured batch_size)
undelivered records are returned per cycle.  The code has no batch bound at
all (no LIMIT in the query, no batch_size option): with two undelivered
source records the backlog already exceeds a batch bound of one. -/
theorem C8_backlog_exceeds_batch_bound : ¬ ((sourceBacklog arc2 []).length ≤ 1) := by
  decide

/-- C8 amended: the backlog fetched in one cycle is unbounded — it returns
every undelivered source record (the code recognizes no batch_size option
and issues no LIMIT). -/
theorem C8_backlog_returns_all_undelivered (archive : List Record) (led : Ledger) :
    (sourceBacklog archive led).length =
      (archive.filter (fun r => !(isSynced led (dtOf r)))).length := by
  unfold sourceBacklog
  exact List.length_insertionSort dtLe (archive.filter (fun r => !(isSynced led (dtOf r))))

/-- C9: the Upsert Writer inserts only the fields of the fixed 89-name
catalog (plus dateTime, usUnits, interval, which the filter admits
separately): a record entry survives the filter exactly when its name is in
the catalog, and a name outside the catalog is absent from the inserted
row, silently. -/
theorem C9_insert_filtered_to_catalog :
    (∀ (record : Record) (p : String × Val), p ∈ insertFilter record ↔
        (p ∈ record ∧ (archive_columns.contains p.1 || seed_columns.contains p.1) = true)) ∧
    archive_columns.length = 89 ∧
    (∀ (record : Record) (c : String),
        (archive_columns.contains c || seed_columns.contains c) = false →
        lookupField (insertFilter record) c = none) := by
  refine ⟨fun record p => List.mem_filter, by decide, fun record c hc => ?_⟩
  exact lookupField_filter_none record _ c (fun _ => hc)

/-- C10: the daily-rollup gate tests Python truthiness of the raw
configuration value, not boolean parsing: any non-empty string (such as
"false" or "0") makes new_archive_record run the daily sync, and it is
skipped exactly when the option is absent (Python False) or the empty
string. -/
theorem C10_daily_sync_gate_truthiness :
    (∀ (s : String) (srcA : List Record) (srcD : String → List Record) (w : World) (r : Record),
        s ≠ "" → (new_archive_record (ConfEntry.val s) srcA srcD w r).dailyRan = true) ∧
    (∀ (srcA : List Record) (srcD : String → List Record) (w : World) (r : Record),
        (new_archive_record ConfEntry.absent srcA srcD w r).dailyRan = false) ∧
    (∀ (srcA : List Record) (srcD : String → List Record) (w : World) (r : Record),
        (new_archive_record (ConfEntry.val "") srcA srcD w r).dailyRan = false) := by
  refine ⟨fun s srcA srcD w r hs => ?_, fun srcA srcD w r => rfl, fun srcA srcD w r => rfl⟩
  have hgate : pyTruthy (getEnableDailySync (ConfEntry.val s)) = true := by
    simp [pyTruthy, getEnableDailySync, hs]
  unfold new_archive_record
  rw [hgate]
  rfl

/-- C10 witness: the string value "false" is truthy, so the daily sync
phase runs. -/
theorem C10_daily_sync_gate_truthiness_witness :
    (new_archive_record (ConfEntry.val "false") [] (fun _ => []) wEmpty []).dailyRan = true :=
  C10_daily_sync_gate_truthiness.1 "false" [] (fun _ => []) wEmpty [] (by decide)

/-! Destination table lemmas. -/

/-- A table the lookup finds exists. -/
theorem hasTable_of_getTable {db : DB} {t : String} {tb : Table}
    (h : getTable db t = some tb) : hasTable db t = true := by
  unfold getTable at h
  unfold hasTable
  cases hf : db.find? (fun p => p.1 == t) with
  | none => rw [hf] at h; cases h
  | some q => rfl

/-- Replacing an existing table is what the lookup then returns. -/
theorem getTable_setTable (db : DB) (t : String) (tb : Table)
    (h : hasTable db t = true) : getTable (setTable db t tb) t = some tb := by
  induction db with
  | nil => cases h
  | cons p l ih =>
      by_cases hpt : ((fun q : String × Table => q.1 == t) p) = true
      · unfold setTable getTable
        rw [List.map_cons, if_pos hpt,
          @List.find?_cons_of_pos _ (fun q : String × Table => q.1 == t) (t, tb)
            (List.map (fun p => if p.1 == t then (t, tb) else p) l) (by simp)]
        rfl
      · have h' : hasTable l t = true := by
          unfold hasTable at h
          rwa [@List.find?_cons_of_neg _ (fun q : String × Table => q.1 == t) p l hpt] at h
        unfold setTable getTable at ih ⊢
        rw [List.map_cons, if_neg hpt,
          @List.find?_cons_of_neg _ (fun q : String × Table => q.1 == t) p
            (List.map (fun p => if p.1 == t then (t, tb) else p) l) hpt]
        exact ih h'

/-- Replacing one table changes no table's existence. -/
theorem hasTable_setTable (db : DB) (t u : String) (tb : Table) :
    hasTable (setTable db t tb) u = hasTable db u := by
  induction db with
  | nil => rfl
  | cons p l ih =>
      by_cases hpt : ((fun q : String × Table => q.1 == t) p) = true
      · have hp1 : p.1 = t := eq_of_beq hpt
        unfold setTable hasTable at ih ⊢
        rw [List.map_cons, if_pos hpt]
        by_cases hu : ((fun q : String × Table => q.1 == u) p) = true
        · rw [@List.find?_cons_of_pos _ (fun q : String × Table => q.1 == u) (t, tb) _
            (by simpa [hp1] using hu),
            @List.find?_cons_of_pos _ (fun q : String × Table => q.1 == u) p l hu]
          rfl
        · rw [@List.find?_cons_of_neg _ (fun q : String × Table => q.1 == u) (t, tb) _
            (by simpa [hp1] using hu),
            @List.find?_cons_of_neg _ (fun q : String × Table => q.1 == u) p l hu]
          exact ih
      · unfold setTable hasTable at ih ⊢
        rw [List.map_cons, if_neg hpt]
        by_cases hu : ((fun q : String × Table => q.1 == u) p) = true
        · rw [@List.find?_cons_of_pos _ (fun q : String × Table => q.1 == u) p _ hu,
            @List.find?_cons_of_pos _ (fun q : String × Table => q.1 == u) p l hu]
        · rw [@List.find?_cons_of_neg _ (fun q : String × Table => q.1 == u) p _ hu,
            @List.find?_cons_of_neg _ (fun q : String × Table => q.1 == u) p l hu]
          exact ih

/-- An existing table still exists after more tables are appended. -/
theorem hasTable_append (db e : DB) (t : String) (h : hasTable db t = true) :
    hasTable (db ++ e) t = true := by
  induction db with
  | nil => cases h
  | cons p l ih =>
      by_cases hpt : ((fun q : String × Table => q.1 == t) p) = true
      · unfold hasTable
        rw [List.cons_append,
          @List.find?_cons_of_pos _ (fun q : String × Table => q.1 == t) p (l ++ e) hpt]
        rfl
      · have h' : hasTable l t = true := by
          unfold hasTable at h
          rwa [@List.find?_cons_of_neg _ (fun q : String × Table => q.1 == t) p l hpt] at h
        unfold hasTable at ih ⊢
        rw [List.cons_append,
          @List.find?_cons_of_neg _ (fun q : String × Table => q.1 == t) p (l ++ e) hpt]
        exact ih h'

/-- Appending a table named t makes t exist. -/
theorem hasTable_append_self (db : DB) (t : String) (tb : Table) :
    hasTable (db ++ [(t, tb)]) t = true := by
  induction db with
  | nil =>
      unfold hasTable
      rw [List.nil_append,
        @List.find?_cons_of_pos _ (fun q : String × Table => q.1 == t) (t, tb) [] (by simp)]
      rfl
  | cons p l ih =>
      by_cases hpt : ((fun q : String × Table => q.1 == t) p) = true
      · unfold hasTable
        rw [List.cons_append,
          @List.find?_cons_of_pos _ (fun q : String × Table => q.1 == t) p (l ++ [(t, tb)]) hpt]
        rfl
      · unfold hasTable at ih ⊢
        rw [List.cons_append,
          @List.find?_cons_of_neg _ (fun q : String × Table => q.1 == t) p (l ++ [(t, tb)]) hpt]
        exact ih

/-- The INSERT statement never changes a table's column list. -/
theorem sqlInsert_cols (tb : Table) (row : Record) : (sqlInsert tb row).1.cols = tb.cols := by
  unfold sqlInsert
  by_cases h1 : ((foldRecord row).all (fun p => tb.cols.contains p.1)) = true
  · rw [if_pos h1]
    by_cases h2 : (tb.hasPK && dupKey tb (foldRecord row)) = true
    · rw [if_pos h2]
    · rw [if_neg h2]
  · rw [if_neg h1]

/-- Registering a hypertable changes no table's existence. -/
theorem hasTable_makeHypertable (db : DB) (t u : String) :
    hasTable (makeHypertable db t) u = hasTable db u := by
  unfold makeHypertable
  cases hg : getTable db t with
  | none => rfl
  | some tb => exact hasTable_setTable db t u { tb with hypertable := true }

/-- Creating a daily table keeps every existing table. -/
theorem hasTable_createDailyTable (db : DB) (t u : String) (h : hasTable db u = true) :
    hasTable (createDailyTable db t) u = true := by
  unfold createDailyTable
  by_cases hd : hasTable db t = true
  · rw [if_pos hd]; exact h
  · rw [if_neg hd]; exact hasTable_append _ _ _ h

/-- The daily-table creation loop keeps every existing table. -/
theorem hasTable_daily_foldl (ts : List String) (db : DB) (u : String)
    (h : hasTable db u = true) :
    hasTable (ts.foldl (fun d t => makeHypertable (createDailyTable d t) t) db) u = true := by
  induction ts generalizing db with
  | nil => exact h
  | cons x xs ih =>
      refine ih _ ?_
      rw [hasTable_makeHypertable]
      exact hasTable_createDailyTable _ _ _ h

/-- Provisioning that finds the archive table already present only sets the
database/extension flags and leaves every table untouched. -/
theorem init_skip (p : PgState) (h : hasTable p.tables "archive" = true) :
    init_tsdb p = { dbCreated := true, ext := true, tables := p.tables } := by
  unfold init_tsdb
  rw [if_pos h]

/-- After provisioning, the archive table exists. -/
theorem init_hasArchive (p : PgState) :
    hasTable (init_tsdb p).tables "archive" = true := by
  unfold init_tsdb
  by_cases h : hasTable p.tables "archive" = true
  · rw [if_pos h]; exact h
  · rw [if_neg h]
    apply hasTable_daily_foldl
    have h1 : hasTable (p.tables ++
        [("archive", { cols := ["datetime", "usunits", "interval"], hasPK := false,
                       hypertable := false, rows := [] })]) "archive" = true :=
      hasTable_append_self _ _ _
    have h2 : hasTable (makeHypertable (p.tables ++
        [("archive", { cols := ["datetime", "usunits", "interval"], hasPK := false,
                       hypertable := false, rows := [] })]) "archive") "archive" = true := by
      rw [hasTable_makeHypertable]; exact h1
    cases hg : getTable (makeHypertable (p.tables ++
        [("archive", { cols := ["datetime", "usunits", "interval"], hasPK := false,
                       hypertable := false, rows := [] })]) "archive") "archive" with
    | none => exact h2
    | some tb => rw [hasTable_setTable]; exact h2

/-- Both provisioning flags end true. -/
theorem init_flags (p : PgState) :
    (init_tsdb p).dbCreated = true ∧ (init_tsdb p).ext = true := by
  unfold init_tsdb
  by_cases h : hasTable p.tables "archive" = true
  · rw [if_pos h]; exact ⟨rfl, rfl⟩
  · rw [if_neg h]; exact ⟨rfl, rfl⟩

/-- Provisioning is idempotent as a whole: a second run is a no-op. -/
theorem init_idem (p : PgState) : init_tsdb (init_tsdb p) = init_tsdb p := by
  rw [init_skip (init_tsdb p) (init_hasArchive p)]
  obtain ⟨h1, h2⟩ := init_flags p
  cases hq : init_tsdb p with
  | mk a b c =>
      rw [hq] at h1 h2
      simp only at h1 h2
      rw [h1, h2]

/-! Claim theorems for C2, C4, C5 and C6. -/

set_option maxRecDepth 8000 in
/-- C2: the claim says the write uses replace-on-conflict (upsert)
semantics so that writing the same record twice yields exactly one
destination row for its dateTime.  On the destination provisioned by
_init_sync_db the archive table has no primary key at all, so writing r100
twice stores two rows for dateTime 100. -/
theorem C2_no_upsert_two_rows_after_double_write : rowCount dbTwice "archive" 100 = 2 := by
  decide

/-- C2 amended: there is no ON CONFLICT clause.  On a table the writer
itself created, dateTime is a primary key, so a second insert of an
existing dateTime raises a duplicate-key error which _insert_tsdb catches
and logs (non-fatal to the caller), leaving the row set unchanged — one
row remains because the duplicate was rejected, not replaced; on the
provisioned (primary-key-free) archive table, re-delivery duplicates the
row instead. -/
theorem C2_duplicate_insert_swallowed (db : DB) (t : String) (record : Record) (tb : Table)
    (hget : getTable db t = some tb) (hpk : tb.hasPK = true)
    (hdup : dupKey tb (foldRecord (insertFilter record)) = true) :
    (insert_tsdb db t record).insertOk = false ∧
    rowsOf (insert_tsdb db t record).db t = rowsOf db t := by
  have hht : hasTable db t = true := hasTable_of_getTable hget
  have hcr : createFromRecord db t record = db := by
    unfold createFromRecord; rw [if_pos hht]
  have hsql : sqlInsert tb (insertFilter record) = (tb, false) := by
    unfold sqlInsert
    by_cases h1 : ((foldRecord (insertFilter record)).all (fun p => tb.cols.contains p.1)) = true
    · rw [if_pos h1, if_pos (show (tb.hasPK && dupKey tb (foldRecord (insertFilter record)))
        = true by rw [hpk, hdup]; rfl)]
    · rw [if_neg h1]
  unfold insert_tsdb
  rw [hcr, hget]
  show (sqlInsert tb (insertFilter record)).2 = false ∧
      rowsOf (setTable db t (sqlInsert tb (insertFilter record)).1) t = rowsOf db t
  rw [hsql]
  refine ⟨rfl, ?_⟩
  show rowsOf (setTable db t tb) t = rowsOf db t
  unfold rowsOf
  rw [getTable_setTable db t tb hht, hget]

/-- C2 witness: on the writer-created archive table already holding r100,
a second write of r100 fails silently and leaves the rows unchanged. -/
theorem C2_duplicate_insert_swallowed_witness :
    (insert_tsdb dbC2 "archive" r100).insertOk = false ∧
    rowsOf (insert_tsdb dbC2 "archive" r100).db "archive" = rowsOf dbC2 "archive" :=
  C2_duplicate_insert_swallowed dbC2 "archive" r100 tbC2 (by decide) (by decide) (by decide)

/-- C4: the claim says a previously-unseen field of a record written to an
existing table is added as a column before the insert, so the write
succeeds.  The code never alters an existing table: writing r100 (whose
outTemp has no column in the seed-only archive table) adds no column and
the INSERT fails (the error is logged and swallowed). -/
theorem C4_no_column_added_on_write :
    colsOf (insert_tsdb dbSeed "archive" r100).db "archive" =
      some ["datetime", "usunits", "interval"] ∧
    (insert_tsdb dbSeed "archive" r100).insertOk = false := by
  decide

/-- C4 amended: a write to an already-existing destination table never
changes that table's column set (no column is added for an unseen field —
the insert simply fails and is swallowed — and none is ever dropped);
columns only come into being when the writer creates the table or during
provisioning. -/
theorem C4_existing_table_columns_unchanged (db : DB) (t : String) (record : Record)
    (h : hasTable db t = true) :
    colsOf (insert_tsdb db t record).db t = colsOf db t := by
  have hcr : createFromRecord db t record = db := by
    unfold createFromRecord; rw [if_pos h]
  unfold insert_tsdb
  rw [hcr]
  cases hget : getTable db t with
  | none => rfl
  | some tb =>
      show colsOf (setTable db t (sqlInsert tb (insertFilter record)).1) t = colsOf db t
      unfold colsOf
      rw [getTable_setTable db t _ h, hget, Option.map_some', Option.map_some', sqlInsert_cols]

/-- C4 witness: writing r100 to the seed-only archive table leaves its
column list unchanged. -/
theorem C4_existing_table_columns_unchanged_witness :
    colsOf (insert_tsdb dbSeed "archive" r100).db "archive" = colsOf dbSeed "archive" :=
  C4_existing_table_columns_unchanged dbSeed "archive" r100 (by decide)

/-- C5: the claim says the backlog loop stops at the first transient
failure and no later record is attempted.  The code continues: with the
backlog [r100, r200] and a destination already holding dateTime 100, the
write of r100 (first in ascending order) fails, yet r200 is still written
(one destination row at 200 appears) and even the failed r100 is marked
synced. -/
theorem C5_no_early_stop_on_failure :
    (insert_tsdb dbC2 "archive" (filterCat r100)).insertOk = false ∧
    rowCount (catchUpPrimary [r100, r200] { dest := dbC2, ledger := [], dayLedger := [] }).dest
      "archive" 200 = 1 ∧
    isSynced (catchUpPrimary [r100, r200] { dest := dbC2, ledger := [], dayLedger := [] }).ledger
      100 = true := by
  decide

/-- C5 amended: the backlog loop never stops early — every record of the
fetched backlog is processed and marked synced in the ledger by the end of
the phase, whether or not its destination write succeeded (the writer
swallows write errors); the batch's marks are committed together when the
loop ends. -/
theorem C5_every_backlog_record_marked (srcArchive : List Record) (w : World) (r : Record)
    (hr : r ∈ sourceBacklog srcArchive w.ledger) :
    isSynced ((catchUpPrimary srcArchive w).ledger) (dtOf r) = true := by
  rw [← dtOf_filterCat r]
  exact marks_all_catchUp (sourceBacklog srcArchive w.ledger) w r hr

/-- C5 witness: the single backlog record r200 ends marked synced. -/
theorem C5_every_backlog_record_marked_witness :
    isSynced ((catchUpPrimary [r200] wEmpty).ledger) (dtOf r200) = true :=
  C5_every_backlog_record_marked [r200] wEmpty r200 (by decide)

/-- C6: the claim says provisioning re-ensures each step individually on
every start, even against a partially-provisioned destination.  With the
archive table present but nothing else (pPartial), init_tsdb skips every
remaining step: no daily table is created, the archive table is not
registered as a hypertable, and the catalog columns are not added. -/
theorem C6_partial_provision_not_repaired :
    hasTable (init_tsdb pPartial).tables "archive_day_rain" = false ∧
    (getTable (init_tsdb pPartial).tables "archive").map Table.hypertable = some false ∧
    colsOf (init_tsdb pPartial).tables "archive" = some ["datetime", "usunits", "interval"] := by
  decide

/-- C6 amended: provisioning is idempotent only as a whole (a second run is
a no-op); its steps are not individually re-ensured, because hypertable
registration, catalog columns and rollup tables are all gated on the
archive table's absence: whenever the archive table already exists, the
run only re-ensures the database and the extension and leaves every table
exactly as it was. -/
theorem C6_provision_skips_when_archive_exists :
    (∀ p : PgState, hasTable p.tables "archive" = true →
        init_tsdb p = { dbCreated := true, ext := true, tables := p.tables }) ∧
    (∀ p : PgState, init_tsdb (init_tsdb p) = init_tsdb p) :=
  ⟨init_skip, init_idem⟩

/-- C6 witness: on the partially-provisioned destination the skip happens
and the second run is a no-op. -/
theorem C6_provision_skips_when_archive_exists_witness :
    init_tsdb pPartial = { dbCreated := true, ext := true, tables := pPartial.tables } ∧
    init_tsdb (init_tsdb pPartial) = init_tsdb pPartial :=
  ⟨C6_provision_skips_when_archive_exists.1 pPartial (by decide),
   C6_provision_skips_when_archive_exists.2 pPartial⟩

end Tsdb
